import Mathlib

/-!
Verification development for the TrackMyCareer-AI repository.

This file shallowly embeds the parts of the code that the specification
talks about:

* the Node relay endpoint `app.post("/analyze")` in `backend/node/server.js`;
* the dashboard state-derivation effect, `percentAway`, `setActiveDay` and
  `handleRoleClick` in `frontend/src/components/dashboard/Dashboard.jsx`;
* the chart components `SalaryTrendChart` and `DemandBarChart` and the way
  `Dashboard.jsx` instantiates them;
* `formatPercent` from `frontend/src/utils/skillsConfig.js` and the
  `ATSGauge` gauge component.

JavaScript runtime values are modelled by the inductive type `JSVal`;
JavaScript numbers by `JSNum` (finite rationals plus `NaN` and the two
infinities).  Property access that can raise a `TypeError` (access on
`null`/`undefined`) is modelled by `getEx` returning an `Option`;
ordinary guarded accesses use `JSVal.get`.
-/

/-- A JavaScript number: `NaN`, `Infinity`, `-Infinity`, or a finite value
(modelled as a rational; every claim below only inspects values where this
is exact). -/
inductive JSNum where
  | nan
  | posInf
  | negInf
  | fin (q : ℚ)

/-- A JavaScript runtime value.  Objects are association lists of fields
(JavaScript object literals have distinct keys; lookup takes the first
match). -/
inductive JSVal where
  | undefined
  | null
  | bool (b : Bool)
  | num (n : JSNum)
  | str (s : String)
  | arr (elems : List JSVal)
  | obj (fields : List (String × JSVal))

/-- JavaScript truthiness: `false`, `0`, `NaN`, `""`, `null` and
`undefined` are falsy, everything else truthy. -/
def jsTruthy : JSVal → Bool
  | .undefined => false
  | .null => false
  | .bool b => b
  | .num .nan => false
  | .num (.fin q) => if q = 0 then false else true
  | .num _ => true
  | .str s => if s = "" then false else true
  | .arr _ => true
  | .obj _ => true

/-- The JavaScript `typeof` operator.  Crucially `typeof null` and
`typeof` of an array are both the string `"object"`. -/
def jsTypeof : JSVal → String
  | .undefined => "undefined"
  | .null => "object"
  | .bool _ => "boolean"
  | .num _ => "number"
  | .str _ => "string"
  | .arr _ => "object"
  | .obj _ => "object"

/-- `Array.isArray`. -/
def isArray : JSVal → Bool
  | .arr _ => true
  | _ => false

/-- Is the value `null` or `undefined`? -/
def isNullish : JSVal → Bool
  | .null => true
  | .undefined => true
  | _ => false

/-- Non-throwing property access: field lookup on objects, `undefined`
on every non-object (the code below only uses this where the receiver is
known not to be `null`/`undefined`, so no `TypeError` can occur). -/
def JSVal.get : JSVal → String → JSVal
  | .obj fs, k =>
      match fs.lookup k with
      | some v => v
      | none => .undefined
  | _, _ => .undefined

/-- Property access that models the `TypeError` thrown when the receiver
is `null` or `undefined`: `none` is the thrown error. -/
def getEx : JSVal → String → Option JSVal
  | .null, _ => none
  | .undefined, _ => none
  | v, k => some (v.get k)

/-- The JavaScript `||` operator: first operand if truthy, else the
second. -/
def jsOr (a b : JSVal) : JSVal :=
  if jsTruthy a then a else b

/-- `Object.keys(v).length`: number of fields of an object, number of
elements of an array, length of a string, `0` for the other primitives
(the code only applies this to values that are not `null`/`undefined`). -/
def objKeysLen : JSVal → Nat
  | .obj fs => fs.length
  | .arr xs => xs.length
  | .str s => s.length
  | _ => 0

/-- Addition of JavaScript numbers (`NaN` propagates, opposite infinities
give `NaN`). -/
def jsNumAdd : JSNum → JSNum → JSNum
  | .nan, _ => .nan
  | _, .nan => .nan
  | .posInf, .negInf => .nan
  | .negInf, .posInf => .nan
  | .posInf, _ => .posInf
  | _, .posInf => .posInf
  | .negInf, _ => .negInf
  | _, .negInf => .negInf
  | .fin a, .fin b => .fin (a + b)

/-- Subtraction of JavaScript numbers. -/
def jsNumSub : JSNum → JSNum → JSNum
  | .nan, _ => .nan
  | _, .nan => .nan
  | .posInf, .posInf => .nan
  | .negInf, .negInf => .nan
  | .posInf, _ => .posInf
  | _, .posInf => .negInf
  | .negInf, _ => .negInf
  | _, .negInf => .posInf
  | .fin a, .fin b => .fin (a - b)

/-- The JavaScript `+` on values.  Every use below has numeric operands;
the coercion of non-numeric operands is not needed and yields `NaN`
here. -/
def jsAdd : JSVal → JSVal → JSVal
  | .num a, .num b => .num (jsNumAdd a b)
  | _, _ => .num .nan

/-- The JavaScript `-` on values; same remark as for `jsAdd`. -/
def jsSub : JSVal → JSVal → JSVal
  | .num a, .num b => .num (jsNumSub a b)
  | _, _ => .num .nan

/-- `Number.isFinite` on a number. -/
def numIsFinite : JSNum → Bool
  | .fin _ => true
  | _ => false

/-- `Number.isNaN` on a number (also what the global `isNaN` computes
once its argument is already a number). -/
def jsNumIsNaN : JSNum → Bool
  | .nan => true
  | _ => false

/-- `Math.round` on a number: round half toward positive infinity on
finite values, identity on `NaN` and the infinities. -/
def jsNumRound : JSNum → JSNum
  | .fin q => .fin ((round q : ℤ) : ℚ)
  | n => n

/-- How a number appears inside a template string.  Only integers, `NaN`
and the infinities are ever rendered by the code below (every finite
value has been through `Math.round` first); a non-integral rational is
rendered as a fraction, which no claim relies on. -/
def JSNum.render : JSNum → String
  | .nan => "NaN"
  | .posInf => "Infinity"
  | .negInf => "-Infinity"
  | .fin q => if q.den = 1 then toString q.num else toString q.num ++ "/" ++ toString q.den

/-- `ToNumber` coercion for the values `formatPercent` can meet.  The
numeric-literal parsing of nonempty strings and the array/object
`toString` round-trip are not modelled (no call site in the repository
passes them); they are mapped to `NaN`. -/
def toNumber : JSVal → JSNum
  | .undefined => .nan
  | .null => .fin 0
  | .bool b => .fin (if b then 1 else 0)
  | .num m => m
  | .str s => if s = "" then .fin 0 else .nan
  | .arr _ => .nan
  | .obj _ => .nan

/-! ## `frontend/src/utils/skillsConfig.js` -/

/-- The literal placeholder string returned by `formatPercent` (an em
dash in the source). -/
def placeholderDash : String := "—"

/-- `formatPercent` from `skillsConfig.js`:
`if (n === null || n === undefined || isNaN(n)) return "—";`
`return ` the template string of `Math.round(n)` followed by `%`. -/
def formatPercent (n : JSVal) : String :=
  if isNullish n || jsNumIsNaN (toNumber n) then placeholderDash
  else (jsNumRound (toNumber n)).render ++ "%"

/-! ## `ATSGauge` (`frontend/src/components/charts/ATSGauge.jsx`) -/

namespace ATSGauge

/-- `const safeScore = Number.isFinite(score) ? Math.round(score) : 0;` -/
def safeScore (score : JSNum) : JSNum :=
  if numIsFinite score then jsNumRound score else .fin 0

/-- The text shown in the gauge: the template string of `safeScore`
followed by `%`. -/
def text (score : JSNum) : String :=
  (safeScore score).render ++ "%"

end ATSGauge

/-! ## Chart components (`SalaryTrendChart.jsx`, `DemandBarChart.jsx`) -/

namespace SalaryTrendChart

/-- `ROLE_SALARY_MAP` from `SalaryTrendChart.jsx`. -/
def ROLE_SALARY_MAP : List (String × List ℚ) :=
  [ ("Data Analyst", [4, 5, 6, 7, 8]),
    ("Data Scientist", [6, 8, 10, 12, 14]),
    ("Machine Learning Engineer", [7, 9, 12, 14, 16]),
    ("Frontend Developer", [5, 6, 7, 8, 9]),
    ("Backend Developer", [6, 7.5, 9, 11, 13]),
    ("Full Stack Developer", [6, 7, 8, 9.5, 11]),
    ("MLOps Engineer", [7, 9, 11, 13, 15]),
    ("Cloud Engineer", [7, 8.5, 10, 12, 14]) ]

/-- `const fallback = [6, 6.5, 7.2, 8.1, 9];` -/
def fallback : List ℚ := [6, 6.5, 7.2, 8.1, 9]

/-- The series the component draws:
`const values = ROLE_SALARY_MAP[role] || fallback;` where `role` is the
prop of that name.  A non-string `role` (in particular `undefined`)
indexes no entry of the map, so the fallback is used. -/
def values (props : JSVal) : List ℚ :=
  match props.get "role" with
  | .str r =>
      match ROLE_SALARY_MAP.lookup r with
      | some v => v
      | none => fallback
  | _ => fallback

end SalaryTrendChart

namespace DemandBarChart

/-- `ROLE_DEMAND_MAP` from `DemandBarChart.jsx`. -/
def ROLE_DEMAND_MAP : List (String × List ℚ) :=
  [ ("Data Analyst", [70, 85]),
    ("Data Scientist", [65, 90]),
    ("Machine Learning Engineer", [60, 95]),
    ("Backend Developer", [75, 88]),
    ("Frontend Developer", [80, 85]),
    ("Full Stack Developer", [78, 92]),
    ("MLOps Engineer", [50, 80]),
    ("Cloud Engineer", [60, 90]) ]

/-- `const fallback = [70, 85];` -/
def fallback : List ℚ := [70, 85]

/-- The series the component draws:
`const values = ROLE_DEMAND_MAP[role] || fallback;`. -/
def values (props : JSVal) : List ℚ :=
  match props.get "role" with
  | .str r =>
      match ROLE_DEMAND_MAP.lookup r with
      | some v => v
      | none => fallback
  | _ => fallback

end DemandBarChart

/-! ## Dashboard state (`frontend/src/components/dashboard/Dashboard.jsx`)

The twelve `useState` hooks at the top of `Dashboard` form the analysis
state store.  Every derived field is kept as a `JSVal` so that the model
can express exactly which runtime values end up stored. -/

structure DashState where
  skills : JSVal
  ats : JSVal
  roles : JSVal
  plan : JSVal
  projects : JSVal
  missingSkills : JSVal
  matchPercent : JSVal
  summaryText : JSVal
  selectedRole : JSVal
  activeDay : String
  salaryData : JSVal
  demandData : JSVal

/-- The `useState` initial value of `ats`:
`{ ats_score: 0, matched: 0, total: 0, matched_keywords: [] }`. -/
def atsInitial : JSVal :=
  .obj [ ("ats_score", .num (.fin 0)), ("matched", .num (.fin 0)),
         ("total", .num (.fin 0)), ("matched_keywords", .arr []) ]

/-- The fallback the effect stores when `analysis.ats` fails the
`typeof` test: `{ ats_score: 0, matched: 0, total: 0 }`. -/
def atsFallback : JSVal :=
  .obj [ ("ats_score", .num (.fin 0)), ("matched", .num (.fin 0)),
         ("total", .num (.fin 0)) ]

/-- The initial salary series `[6, 6.5, 7.2, 8.1, 9]` as a `JSVal`. -/
def salaryInitial : JSVal :=
  .arr [ .num (.fin 6), .num (.fin 6.5), .num (.fin 7.2),
         .num (.fin 8.1), .num (.fin 9) ]

/-- The initial demand series `[70, 85]` as a `JSVal`. -/
def demandInitial : JSVal :=
  .arr [ .num (.fin 70), .num (.fin 85) ]

/-- The state produced by the twelve `useState` initialisers. -/
def initialState : DashState where
  skills := .arr []
  ats := atsInitial
  roles := .arr []
  plan := .obj []
  projects := .arr []
  missingSkills := .arr []
  matchPercent := .num (.fin 0)
  summaryText := .str ""
  selectedRole := .null
  activeDay := "30_days"
  salaryData := salaryInitial
  demandData := demandInitial

/-- The state-derivation effect (`useEffect` at lines 37 to 61 of
`Dashboard.jsx`), run against a current state and the `analysis` prop.

* The guard `if (!analysis || Object.keys(analysis).length === 0) return;`
  leaves the state untouched.
* Each field is coerced exactly as in the source
  (`Array.isArray(...) ? ... : []`, `typeof ... === "object" ? ... : ...`,
  `typeof ... === "number" ? ... : 0`, `analysis.summary_text || ""`).
* `analysis.role_recommendations[0].title` throws a `TypeError` when the
  first element is `null`/`undefined`; the thrown case is `none`.
* The chart branches model
  `if (analysis.chart?.salary && Array.isArray(analysis.chart.salary))`
  (and the same for `demand`). -/
def applyAnalysis (s : DashState) (a : JSVal) : Option DashState :=
  if jsTruthy a = false then some s
  else if objKeysLen a = 0 then some s
  else
    match (match a.get "role_recommendations" with
           | .arr (r0 :: _) => (getEx r0 "title").map (fun t => jsOr t r0)
           | _ => some s.selectedRole) with
    | none => none
    | some sel =>
      some
        { skills := if isArray (a.get "skills") then a.get "skills" else .arr []
          ats := if jsTypeof (a.get "ats") = "object" then a.get "ats" else atsFallback
          roles := if isArray (a.get "role_recommendations") then a.get "role_recommendations" else .arr []
          plan := if jsTypeof (a.get "learning_plan") = "object" then a.get "learning_plan" else .obj []
          projects := if isArray (a.get "projects") then a.get "projects" else .arr []
          missingSkills := if isArray (a.get "missing_skills") then a.get "missing_skills" else .arr []
          matchPercent := if jsTypeof (a.get "match_percent") = "number" then a.get "match_percent" else .num (.fin 0)
          summaryText := jsOr (a.get "summary_text") (.str "")
          selectedRole := sel
          activeDay := s.activeDay
          salaryData :=
            if jsTruthy ((a.get "chart").get "salary") && isArray ((a.get "chart").get "salary")
            then (a.get "chart").get "salary" else s.salaryData
          demandData :=
            if jsTruthy ((a.get "chart").get "demand") && isArray ((a.get "chart").get "demand")
            then (a.get "chart").get "demand" else s.demandData }

/-- `handleRoleClick` (lines 63 to 65): `const title = r.title || r;`
then `setSelectedRole(title)`.  Accessing `.title` on a nullish `r`
throws. -/
def handleRoleClick (s : DashState) (r : JSVal) : Option DashState :=
  (getEx r "title").map (fun t => { s with selectedRole := jsOr t r })

/-- The horizon buttons only call `setActiveDay(key)`. -/
def setActiveDayOp (s : DashState) (k : String) : DashState :=
  { s with activeDay := k }

/-- `const percentAway = 100 - (matchPercent || 0);` -/
def percentAway (s : DashState) : JSVal :=
  jsSub (.num (.fin 100)) (jsOr s.matchPercent (.num (.fin 0)))

/-- `true` when none of the eight derived payload fields of the state is
`null` or `undefined`. -/
def fieldsNotNullish (s : DashState) : Bool :=
  !(isNullish s.skills) && !(isNullish s.ats) && !(isNullish s.roles) &&
  !(isNullish s.plan) && !(isNullish s.projects) && !(isNullish s.missingSkills) &&
  !(isNullish s.matchPercent) && !(isNullish s.summaryText)

/-- `true` when `v` is not a nonempty array whose first element is
`null`/`undefined` — exactly the payload shapes on which the effect does
not throw. -/
def headNotNullish : JSVal → Bool
  | .arr (h :: _) => !(isNullish h)
  | _ => true

/-- The props `Dashboard.jsx` passes at line 127:
`<SalaryTrendChart data={salaryData} />` — a `data` prop and no `role`
prop. -/
def dashboardSalarySeries (s : DashState) : List ℚ :=
  SalaryTrendChart.values (.obj [("data", s.salaryData)])

/-- The props `Dashboard.jsx` passes at line 128:
`<DemandBarChart data={demandData} />`. -/
def dashboardDemandSeries (s : DashState) : List ℚ :=
  DemandBarChart.values (.obj [("data", s.demandData)])

/-! ## The relay (`backend/node/server.js`)

`app.post("/analyze", upload.single("resume"), handler)` is modelled as a
function of the parsed request and of the backend call outcome.  The
`fs.unlinkSync` on the success path is modelled as succeeding: the
per-request temp file was just written by multer and nothing else
touches it. -/

/-- A parsed `/analyze` request after multer ran: `req.file` carries the
stored path when a file field was present; the `req.body` text fields
are arbitrary values (`undefined` when absent). -/
structure AnalyzeRequest where
  file : Option String
  target_role : JSVal
  resume_text : JSVal

/-- The multipart form the relay builds for the backend call. -/
structure ForwardForm where
  resumePath : String
  target_role : JSVal
  resume_text : JSVal

/-- Outcome of `axios.post("http://127.0.0.1:8000/analyze", ...)`:
either a 2xx response with a JSON body, or a raised error (network
failure or non-2xx status). -/
inductive BackendOutcome where
  | success (body : JSVal)
  | failure (detail : String)

/-- What the relay hands back to the client. -/
structure RelayResponse where
  status : Nat
  body : JSVal

/-- Complete observable effect of one `/analyze` request: the HTTP
response, the forwarding call made (if any), and whether the temp file
was deleted before responding. -/
structure RelayResult where
  response : RelayResponse
  forwarded : Option ForwardForm
  tempFileDeleted : Bool

/-- The `/analyze` handler:

* `if (!req.file) return res.status(400).json({ error: "No resume uploaded" });`
* otherwise build the form (`req.body.target_role || ""`,
  `req.body.resume_text || ""`), forward, and on success
  `fs.unlinkSync(req.file.path); res.json(response.data);`
* on a thrown forwarding error the `catch` block only logs and sends
  `res.status(500).json({ error: "Python backend error" })` — it contains
  no `unlinkSync`. -/
def analyzeHandler (req : AnalyzeRequest) (backend : BackendOutcome) : RelayResult :=
  match req.file with
  | none =>
      { response := { status := 400, body := .obj [("error", .str "No resume uploaded")] }
        forwarded := none
        tempFileDeleted := false }
  | some p =>
      let form : ForwardForm :=
        { resumePath := p
          target_role := jsOr req.target_role (.str "")
          resume_text := jsOr req.resume_text (.str "") }
      match backend with
      | .success data =>
          { response := { status := 200, body := data }
            forwarded := some form
            tempFileDeleted := true }
      | .failure _ =>
          { response := { status := 500, body := .obj [("error", .str "Python backend error")] }
            forwarded := some form
            tempFileDeleted := false }

/-! ## Concrete inputs used by witnesses and counterexamples -/

/-- A request carrying an uploaded file and both text fields. -/
def reqWithFile : AnalyzeRequest where
  file := some "uploads/1700000000000-0.5.pdf"
  target_role := .str "Data Analyst"
  resume_text := .str "Python, SQL"

/-- A request with no file attached (text fields still present). -/
def reqNoFile : AnalyzeRequest where
  file := none
  target_role := .str "Data Analyst"
  resume_text := .str "Python, SQL"

/-- A sample backend response body. -/
def sampleBody : JSVal :=
  .obj [ ("match_percent", .num (.fin 60)), ("summary_text", .str "ok"),
         ("extra_field", .arr [.num (.fin 1)]) ]

/-- A payload whose `ats` field is `null`. -/
def nullAtsAnalysis : JSVal := .obj [("ats", .null)]

/-- A payload whose `skills` field has the wrong runtime shape (a
number instead of an array). -/
def aWrongShapes : JSVal := .obj [("skills", .num (.fin 5))]

/-- A payload carrying only an (empty) `skills` array and in particular
no `match_percent`. -/
def aNoMatch : JSVal := .obj [("skills", .arr [])]

/-- A state with a 50 percent match. -/
def st50 : DashState := { initialState with matchPercent := .num (.fin 50) }

/-- The state the effect derives from a guard-passing payload all of
whose fields are missing or mis-shaped: every field is its default, and
`ats` is the effect fallback object (without `matched_keywords`). -/
def stNoMatch : DashState := { initialState with ats := atsFallback }

/-- A role recommendation whose `title` is the empty string. -/
def emptyTitleRec : JSVal :=
  .obj [ ("title", .str ""), ("reason", .str "solid fundamentals"),
         ("readiness", .num (.fin 50)) ]

/-- A fresh payload whose single role recommendation has an empty
`title`. -/
def emptyTitleAnalysis : JSVal :=
  .obj [("role_recommendations", .arr [emptyTitleRec])]

/-- The state derived from `emptyTitleAnalysis`. -/
def stEmptyTitle : DashState :=
  { initialState with
      ats := atsFallback
      roles := .arr [emptyTitleRec]
      selectedRole := emptyTitleRec }

/-- A role recommendation with a nonempty `title`. -/
def goodTitleRec : JSVal :=
  .obj [ ("title", .str "Data Scientist"), ("reason", .str "strong Python"),
         ("readiness", .num (.fin 72)) ]

/-- A fresh payload with one recommendation titled `"Data Scientist"`. -/
def goodTitleAnalysis : JSVal :=
  .obj [("role_recommendations", .arr [goodTitleRec])]

/-- The state derived from `goodTitleAnalysis`. -/
def stGoodTitle : DashState :=
  { initialState with
      ats := atsFallback
      roles := .arr [goodTitleRec]
      selectedRole := .str "Data Scientist" }

/-! ## Theorems -/

/-- C1 counterexample: for a request that carries a file, when the
forwarding call fails the relay answers 500 but does **not** delete the
transient uploaded file — the `catch` block of `app.post("/analyze")`
contains no `unlinkSync`, so the temp file outlives the request. -/
theorem relay_temp_file_not_deleted_on_failure :
    (analyzeHandler reqWithFile (.failure "connect ECONNREFUSED 127.0.0.1:8000")).tempFileDeleted
        = false ∧
    (analyzeHandler reqWithFile (.failure "connect ECONNREFUSED 127.0.0.1:8000")).response.status
        = 500 :=
  ⟨rfl, rfl⟩

/-- C1 (amended): for every request carrying a file, the relay deletes
the transient uploaded file before responding exactly on the
forwarding-success path; on the forwarding-failure path the file is not
deleted. -/
theorem relay_temp_file_deleted_iff_success :
    ∀ (req : AnalyzeRequest) (p : String), req.file = some p →
      (∀ data : JSVal, (analyzeHandler req (.success data)).tempFileDeleted = true) ∧
      (∀ e : String, (analyzeHandler req (.failure e)).tempFileDeleted = false) := by
  intro req p hp
  exact ⟨fun data => by simp [analyzeHandler, hp], fun e => by simp [analyzeHandler, hp]⟩

/-- C1 witness: the amended deletion behaviour at a concrete request. -/
theorem relay_temp_file_deleted_iff_success_witness :
    (analyzeHandler reqWithFile (.success sampleBody)).tempFileDeleted = true ∧
    (analyzeHandler reqWithFile (.failure "boom")).tempFileDeleted = false :=
  ⟨(relay_temp_file_deleted_iff_success reqWithFile "uploads/1700000000000-0.5.pdf" rfl).1 sampleBody,
   (relay_temp_file_deleted_iff_success reqWithFile "uploads/1700000000000-0.5.pdf" rfl).2 "boom"⟩

/-- C5: on forwarding success the relay responds with HTTP 200 and the
backend body exactly as received (`res.json(response.data)` — no field
reshaped, added, removed or validated). -/
theorem relay_success_passthrough :
    ∀ (req : AnalyzeRequest) (p : String) (body : JSVal), req.file = some p →
      (analyzeHandler req (.success body)).response.status = 200 ∧
      (analyzeHandler req (.success body)).response.body = body := by
  intro req p body hp
  simp [analyzeHandler, hp]

/-- C5 witness: the pass-through at a concrete request and body. -/
theorem relay_success_passthrough_witness :
    (analyzeHandler reqWithFile (.success sampleBody)).response.status = 200 ∧
    (analyzeHandler reqWithFile (.success sampleBody)).response.body = sampleBody :=
  relay_success_passthrough reqWithFile "uploads/1700000000000-0.5.pdf" sampleBody rfl

/-- C6: every `/analyze` request without a file — whatever the text
fields hold — is answered with status 400 and no forwarding call is made
to the backend. -/
theorem relay_rejects_missing_file :
    ∀ (req : AnalyzeRequest) (backend : BackendOutcome), req.file = none →
      (analyzeHandler req backend).response.status = 400 ∧
      (analyzeHandler req backend).forwarded = none := by
  intro req backend h
  simp [analyzeHandler, h]

/-- C6 witness: a text-only submission is rejected without forwarding,
whatever the backend would have answered. -/
theorem relay_rejects_missing_file_witness :
    (analyzeHandler reqNoFile (.success sampleBody)).response.status = 400 ∧
    (analyzeHandler reqNoFile (.success sampleBody)).forwarded = none :=
  relay_rejects_missing_file reqNoFile (.success sampleBody) rfl

/-- C9: whatever the dashboard state (hence whatever analysis payload
produced it), the rendered salary and demand series are the constant
fallback series: `Dashboard.jsx` passes the data as a `data` prop while
the two chart components select their series from a `role` prop they
never receive. -/
theorem charts_always_fallback_series :
    ∀ s : DashState,
      dashboardSalarySeries s = [6, 6.5, 7.2, 8.1, 9] ∧
      dashboardDemandSeries s = [70, 85] := by
  intro s
  exact ⟨rfl, rfl⟩

/-- C7 counterexample: `formatPercent` does not render a placeholder at
`Infinity` — its guard uses `isNaN`, which is false on `Infinity`, so
the raw non-finite value reaches the output string. -/
theorem formatPercent_infinity_not_placeholder :
    formatPercent (.num .posInf) = "Infinity%" ∧ "Infinity%" ≠ placeholderDash :=
  ⟨rfl, by decide⟩

/-- C7 (amended): `ATSGauge` is total on all numbers and renders the
fixed `"0%"` (never the raw value) for every non-finite score, and
`formatPercent` renders the dash placeholder for `NaN`, `null` and
`undefined`; but `formatPercent` passes the infinities through as
`"Infinity%"` and `"-Infinity%"`. -/
theorem nonfinite_display_amended :
    (∀ m : JSNum, numIsFinite m = false →
        ATSGauge.safeScore m = .fin 0 ∧ ATSGauge.text m = "0%") ∧
    formatPercent (.num .nan) = placeholderDash ∧
    formatPercent .null = placeholderDash ∧
    formatPercent .undefined = placeholderDash ∧
    formatPercent (.num .posInf) = "Infinity%" ∧
    formatPercent (.num .negInf) = "-Infinity%" := by
  refine ⟨?_, rfl, rfl, rfl, rfl, rfl⟩
  intro m hm
  have h0 : ATSGauge.safeScore m = .fin 0 := by simp [ATSGauge.safeScore, hm]
  refine ⟨h0, ?_⟩
  show (ATSGauge.safeScore m).render ++ "%" = "0%"
  rw [h0]
  rfl

/-- C7 witness: a `NaN` score renders as the fixed `"0%"`. -/
theorem nonfinite_display_amended_witness :
    ATSGauge.safeScore .nan = .fin 0 ∧ ATSGauge.text .nan = "0%" :=
  nonfinite_display_amended.1 .nan rfl

/-- Helper: a value reached through `JSVal.get` that is not `undefined`
forces its receiver to be truthy with at least one key, so the effect
guard passes. -/
theorem get_guard (a : JSVal) (k : String) (h : a.get k ≠ .undefined) :
    jsTruthy a = true ∧ objKeysLen a ≠ 0 := by
  cases a with
  | obj fs =>
      cases fs with
      | nil => exact absurd rfl h
      | cons f fs => exact ⟨rfl, Nat.succ_ne_zero _⟩
  | undefined => exact absurd rfl h
  | null => exact absurd rfl h
  | bool b => exact absurd rfl h
  | num n => exact absurd rfl h
  | str s => exact absurd rfl h
  | arr xs => exact absurd rfl h

/-- Helper: throwing access agrees with plain access on non-nullish
receivers. -/
theorem getEx_eq_some (r : JSVal) (k : String) (h : isNullish r = false) :
    getEx r k = some (r.get k) := by
  cases r <;> simp_all [isNullish, getEx]

/-- Helper: a truthy value is not `null`/`undefined`. -/
theorem truthy_not_nullish (v : JSVal) (h : jsTruthy v = true) :
    isNullish v = false := by
  cases v <;> simp_all [jsTruthy, isNullish]

/-- Helper: the array-coercion pattern of the effect never yields a
nullish value. -/
theorem isNullish_array_coerce (v : JSVal) :
    isNullish (if isArray v then v else .arr []) = false := by
  cases v <;> simp [isArray, isNullish]

/-- Helper: a value of `typeof` `"object"` other than `null` is not
nullish. -/
theorem typeof_object_not_nullish (v : JSVal) (h : jsTypeof v = "object")
    (hnull : v ≠ .null) : isNullish v = false := by
  cases v with
  | null => exact absurd rfl hnull
  | arr xs => rfl
  | obj fs => rfl
  | undefined => simp [jsTypeof] at h
  | bool b => simp [jsTypeof] at h
  | num n => simp [jsTypeof] at h
  | str s => simp [jsTypeof] at h

/-- Helper: a value of `typeof` `"number"` is not nullish. -/
theorem typeof_number_not_nullish (v : JSVal) (h : jsTypeof v = "number") :
    isNullish v = false := by
  cases v with
  | num n => rfl
  | null => simp [jsTypeof] at h
  | undefined => simp [jsTypeof] at h
  | bool b => simp [jsTypeof] at h
  | str s => simp [jsTypeof] at h
  | arr xs => simp [jsTypeof] at h
  | obj fs => simp [jsTypeof] at h

/-- Helper: `x || ""` is never nullish. -/
theorem isNullish_jsOr_str (v : JSVal) (d : String) :
    isNullish (jsOr v (.str d)) = false := by
  unfold jsOr
  split
  · next h => exact truthy_not_nullish v h
  · rfl

/-- C8: a `null`, `undefined` or zero-key `analysis` prop makes the
effect return early, keeping every derived state field exactly as it
was. -/
theorem effect_early_return_preserves_state :
    ∀ (s : DashState) (a : JSVal),
      a = .null ∨ a = .undefined ∨ a = .obj [] →
      applyAnalysis s a = some s := by
  intro s a h
  rcases h with h | h | h <;> subst h <;> rfl

/-- C8 witness: the empty-object payload leaves the initial state
untouched. -/
theorem effect_early_return_preserves_state_witness :
    applyAnalysis initialState (.obj []) = some initialState :=
  effect_early_return_preserves_state initialState (.obj []) (Or.inr (Or.inr rfl))

/-- C3: `percentAway + matchPercent = 100` for every numeric
`matchPercent` in `[0, 100]`, and `percentAway` is exactly `100`
whenever the payload had no numeric `match_percent` (the effect then
defaults `matchPercent` to `0`). -/
theorem percentAway_complement :
    (∀ (s : DashState) (q : ℚ), s.matchPercent = .num (.fin q) → 0 ≤ q → q ≤ 100 →
        jsAdd (percentAway s) s.matchPercent = .num (.fin 100)) ∧
    (∀ (a : JSVal) (s : DashState), jsTypeof (a.get "match_percent") ≠ "number" →
        applyAnalysis initialState a = some s →
        percentAway s = .num (.fin 100)) := by
  constructor
  · intro s q hq h0 h100
    by_cases hq0 : q = 0
    · subst hq0
      simp [percentAway, hq, jsOr, jsTruthy, jsSub, jsNumSub, jsAdd, jsNumAdd]
    · simp [percentAway, hq, jsOr, jsTruthy, hq0, jsSub, jsNumSub, jsAdd, jsNumAdd]
  · intro a s hne happ
    have hinit : percentAway initialState = .num (.fin 100) := by
      simp [percentAway, initialState, jsOr, jsTruthy, jsSub, jsNumSub]
    unfold applyAnalysis at happ
    split at happ
    · cases happ
      exact hinit
    · split at happ
      · cases happ
        exact hinit
      · split at happ
        · exact absurd happ (by simp)
        · cases happ
          simp [percentAway, hne, jsOr, jsTruthy, jsSub, jsNumSub]

/-- C3 witness: at `matchPercent = 50` the two derived numbers sum to
100, and from a payload without `match_percent` the derived
`percentAway` is 100. -/
theorem percentAway_complement_witness :
    jsAdd (percentAway st50) st50.matchPercent = .num (.fin 100) ∧
    percentAway stNoMatch = .num (.fin 100) :=
  ⟨percentAway_complement.1 st50 50 rfl (by norm_num) (by norm_num),
   percentAway_complement.2 aNoMatch stNoMatch (by decide) rfl⟩

/-- Helper: the `typeof ... === "object"` coercion pattern is nullish
only when the scrutinised value is `null` (given a non-nullish
default). -/
theorem isNullish_object_coerce (v d : JSVal) (hv : v ≠ .null)
    (hd : isNullish d = false) :
    isNullish (if jsTypeof v = "object" then v else d) = false := by
  split
  · next ht => exact typeof_object_not_nullish v ht hv
  · exact hd

/-- Helper: the `typeof ... === "number"` coercion pattern is never
nullish. -/
theorem isNullish_number_coerce (v : JSVal) :
    isNullish (if jsTypeof v = "number" then v else .num (.fin 0)) = false := by
  split
  · next ht => exact typeof_number_not_nullish v ht
  · rfl

/-- C2 counterexample: a payload whose `ats` field is `null` passes the
`typeof analysis.ats === "object"` test (because `typeof null` is
`"object"`), so the store puts `null` — not the documented default —
into the derived `ats` field. -/
theorem store_passes_null_ats_through :
    (applyAnalysis initialState nullAtsAnalysis).map DashState.ats = some JSVal.null ∧
    JSVal.null ≠ atsFallback :=
  ⟨rfl, fun h => JSVal.noConfusion h⟩

/-- C2 (amended): for every payload, (1) as long as `ats` and
`learning_plan` are not the value `null`, whatever reaches the derived
state has no `null`/`undefined` among the eight payload-derived fields;
(2) when the guard passes, every missing or mis-shaped field degrades to
the code default (empty array for the four array fields, the zeroed
`ats` object, `{}` for the plan, `0` for `match_percent`, `""` for a
falsy `summary_text`); and (3) the effect never throws unless the first
role recommendation is itself `null`/`undefined`. -/
theorem store_defaulting_amended :
    (∀ (a : JSVal) (s : DashState),
        a.get "ats" ≠ .null → a.get "learning_plan" ≠ .null →
        applyAnalysis initialState a = some s →
        fieldsNotNullish s = true) ∧
    (∀ (a : JSVal) (s : DashState),
        jsTruthy a = true → objKeysLen a ≠ 0 →
        applyAnalysis initialState a = some s →
        (isArray (a.get "skills") = false → s.skills = .arr []) ∧
        (jsTypeof (a.get "ats") ≠ "object" → s.ats = atsFallback) ∧
        (isArray (a.get "role_recommendations") = false → s.roles = .arr []) ∧
        (jsTypeof (a.get "learning_plan") ≠ "object" → s.plan = .obj []) ∧
        (isArray (a.get "projects") = false → s.projects = .arr []) ∧
        (isArray (a.get "missing_skills") = false → s.missingSkills = .arr []) ∧
        (jsTypeof (a.get "match_percent") ≠ "number" → s.matchPercent = .num (.fin 0)) ∧
        (jsTruthy (a.get "summary_text") = false → s.summaryText = .str "")) ∧
    (∀ a : JSVal, headNotNullish (a.get "role_recommendations") = true →
        (applyAnalysis initialState a).isSome = true) := by
  refine ⟨?_, ?_, ?_⟩
  · intro a s hats hplan happ
    unfold applyAnalysis at happ
    split at happ
    · cases happ
      rfl
    · split at happ
      · cases happ
        rfl
      · split at happ
        · exact absurd happ (by simp)
        · cases happ
          simp [fieldsNotNullish, isNullish_array_coerce, isNullish_jsOr_str,
            isNullish_number_coerce,
            isNullish_object_coerce (a.get "ats") atsFallback hats rfl,
            isNullish_object_coerce (a.get "learning_plan") (JSVal.obj []) hplan rfl]
  · intro a s htr hkeys happ
    unfold applyAnalysis at happ
    rw [if_neg (by simp [htr]), if_neg hkeys] at happ
    split at happ
    · exact absurd happ (by simp)
    · cases happ
      refine ⟨?_, ?_, ?_, ?_, ?_, ?_, ?_, ?_⟩ <;> intro hcond <;>
        simp [hcond, jsOr]
  · intro a h
    by_cases h1 : jsTruthy a = false
    · simp [applyAnalysis, h1]
    · by_cases h2 : objKeysLen a = 0
      · simp [applyAnalysis, h1, h2]
      · unfold applyAnalysis
        rw [if_neg h1, if_neg h2]
        cases hrr : a.get "role_recommendations" with
        | arr xs =>
            rw [hrr] at h
            cases xs with
            | nil => rfl
            | cons r0 rest =>
                have hr0 : isNullish r0 = false := by
                  simpa [headNotNullish] using h
                simp [getEx_eq_some r0 "title" hr0]
        | undefined => rfl
        | null => rfl
        | bool b => rfl
        | num n => rfl
        | str s => rfl
        | obj fs => rfl

/-- C2 witness: a payload whose only field has the wrong shape derives
the all-defaults state, with nothing nullish stored and no throw. -/
theorem store_defaulting_amended_witness :
    fieldsNotNullish stNoMatch = true ∧ stNoMatch.skills = .arr [] ∧
    (applyAnalysis initialState aWrongShapes).isSome = true :=
  ⟨store_defaulting_amended.1 aWrongShapes stNoMatch
      (fun h => JSVal.noConfusion h) (fun h => JSVal.noConfusion h) rfl,
   (store_defaulting_amended.2.1 aWrongShapes stNoMatch rfl (Nat.succ_ne_zero 0) rfl).1 rfl,
   store_defaulting_amended.2.2 aWrongShapes rfl⟩

/-- Helper: a property read that yields a string forces a non-nullish
receiver. -/
theorem get_str_not_nullish (r : JSVal) (k : String) (t : String)
    (h : r.get k = .str t) : isNullish r = false := by
  cases r <;> simp_all [JSVal.get, isNullish]

/-- C4 counterexample: a fresh payload with one role recommendation
whose `title` is the empty string sets `selectedRole` to the whole
recommendation object (`rec.title || rec` falls through), not to the
first recommendation title. -/
theorem selectedRole_empty_title_counterexample :
    (applyAnalysis initialState emptyTitleAnalysis).map DashState.selectedRole
        = some emptyTitleRec ∧
    emptyTitleRec.get "title" = .str "" ∧
    emptyTitleRec ≠ .str "" :=
  ⟨rfl, rfl, fun h => JSVal.noConfusion h⟩

/-- C4 (amended): immediately after a fresh payload whose first role
recommendation carries a nonempty string `title` is applied,
`selectedRole` equals that title; and `selectedRole` is unchanged by any
sequence of plan-horizon selections. -/
theorem selectedRole_first_title_amended :
    (∀ (a : JSVal) (s : DashState) (r0 : JSVal) (rest : List JSVal) (t : String),
        a.get "role_recommendations" = .arr (r0 :: rest) →
        r0.get "title" = .str t → t ≠ "" →
        applyAnalysis initialState a = some s →
        s.selectedRole = .str t) ∧
    (∀ (s : DashState) (ks : List String),
        (ks.foldl setActiveDayOp s).selectedRole = s.selectedRole) := by
  constructor
  · intro a s r0 rest t hrr htitle ht happ
    obtain ⟨htr, hkeys⟩ := get_guard a "role_recommendations"
      (by rw [hrr]; intro hcon; exact JSVal.noConfusion hcon)
    unfold applyAnalysis at happ
    rw [if_neg (by simp [htr]), if_neg hkeys, hrr] at happ
    simp only [getEx_eq_some r0 "title" (get_str_not_nullish r0 "title" t htitle),
        htitle, Option.map_some'] at happ
    rw [show jsOr (.str t) r0 = .str t from by simp [jsOr, jsTruthy, ht]] at happ
    cases happ
    rfl
  · intro s ks
    induction ks generalizing s with
    | nil => rfl
    | cons k ks ih => simpa [setActiveDayOp] using ih (setActiveDayOp s k)

/-- C4 witness: the amended behaviour at a concrete payload titled
`"Data Scientist"` and the three horizon keys. -/
theorem selectedRole_first_title_amended_witness :
    stGoodTitle.selectedRole = .str "Data Scientist" ∧
    (["30_days", "60_days", "90_days"].foldl setActiveDayOp stGoodTitle).selectedRole
        = stGoodTitle.selectedRole :=
  ⟨selectedRole_first_title_amended.1 goodTitleAnalysis stGoodTitle goodTitleRec []
      "Data Scientist" rfl rfl (by decide) rfl,
   selectedRole_first_title_amended.2 stGoodTitle ["30_days", "60_days", "90_days"]⟩

/-- C10: whenever the first role recommendation is an object with a
falsy `title` (missing, `undefined`, empty string, or any other falsy
value), the effect stores the entire recommendation object in
`selectedRole`, not a title string. -/
theorem selectedRole_falsy_title_object :
    ∀ (a : JSVal) (fs : List (String × JSVal)) (rest : List JSVal) (s : DashState),
      a.get "role_recommendations" = .arr (.obj fs :: rest) →
      jsTruthy ((JSVal.obj fs).get "title") = false →
      applyAnalysis initialState a = some s →
      s.selectedRole = .obj fs := by
  intro a fs rest s hrr hfalsy happ
  obtain ⟨htr, hkeys⟩ := get_guard a "role_recommendations"
    (by rw [hrr]; intro hcon; exact JSVal.noConfusion hcon)
  unfold applyAnalysis at happ
  rw [if_neg (by simp [htr]), if_neg hkeys, hrr] at happ
  simp only [getEx_eq_some (.obj fs) "title" rfl, Option.map_some'] at happ
  rw [show jsOr ((JSVal.obj fs).get "title") (.obj fs) = .obj fs from
        by simp [jsOr, hfalsy]] at happ
  cases happ
  rfl

/-- C10 witness: the empty-title payload stores the recommendation
object itself as `selectedRole`. -/
theorem selectedRole_falsy_title_object_witness :
    stEmptyTitle.selectedRole =
      .obj [ ("title", .str ""), ("reason", .str "solid fundamentals"),
             ("readiness", .num (.fin 50)) ] :=
  selectedRole_falsy_title_object emptyTitleAnalysis
    [ ("title", .str ""), ("reason", .str "solid fundamentals"),
      ("readiness", .num (.fin 50)) ]
    [] stEmptyTitle rfl rfl rfl
